import Mathlib

/-!
Shallow embedding of `datapoints_csv_extractor.py` (the primary script of the
repository `datapoints-csv-extractor`): a pipeline that scans a watch
directory for `*.csv` files, parses each file's columns into timestamped
data points, registers unknown series, batches data points for delivery to a
remote store, and disposes of each file (delete on success, quarantine or
leave in place on failure).

Conventions of the embedding:
* Python strings are Lean `String`s, manipulated through their character
  lists (the byte-level Lean primitives such as `String.trim` do not reduce
  in the kernel, so the Python semantics is re-implemented on `List Char`).
* Timestamps (`time.time()`, `st_mtime`) are rationals `ℚ`; Python `int()`
  truncation toward zero is `pyInt`.
* Python `float` values produced by `float(...)` on finite decimal literals
  are modelled as rationals; the modelled fragment of `float(...)` is:
  optional surrounding whitespace, optional sign, digits with at most one
  decimal dot (at least one digit).  Exponent notation and the special
  tokens `nan`/`inf` are outside the modelled fragment.
* `pandas` cells are `Option String`: `none` models a cell that pandas read
  as NA/null (`pandas.notnull` is false on it).
* The remote client (`client.time_series.post_time_series`,
  `client.datapoints.post_multi_time_series_datapoints`) is opaque; the
  outcome of a registration call is an environment parameter
  `regFails : String → Bool`, and issued batch deliveries are recorded in
  the state rather than sent anywhere.  `_log_error` swallows any raised
  exception, which is why the recorded outcome influences nothing else.
-/

namespace DCE

/-! ### Character/string utilities mirroring Python's `str` methods -/

/-- Characters of a Python string, with all commas replaced by dots:
`value_string.replace(",", ".")` from `create_data_points`. -/
def replaceCommaDot (s : String) : String :=
  String.mk (s.data.map (fun c => if c = ',' then '.' else c))

/-- Python `str.strip()` on a character list: drop leading and trailing
whitespace. -/
def stripWs (cs : List Char) : List Char :=
  ((cs.dropWhile Char.isWhitespace).reverse.dropWhile Char.isWhitespace).reverse

/-- Python `str.strip()`. -/
def pyStrip (s : String) : String :=
  String.mk (stripWs s.data)

/-- Python code-point comparison of strings (used by `sorted` on paths that
live in one directory), as a lexicographic comparison of character lists. -/
def charListLe : List Char → List Char → Bool
  | [], _ => true
  | _ :: _, [] => false
  | a :: as, b :: bs =>
    if a.toNat < b.toNat then true
    else if b.toNat < a.toNat then false
    else charListLe as bs

/-- Python `<=` on path strings. -/
def pathLe (a b : String) : Prop := charListLe a.data b.data = true

instance : DecidableRel pathLe := fun a b => instDecidableEqBool _ _

/-- Descending path order: `a` before `b` under Python
`sorted(..., reverse=True)`. -/
def pathGe (a b : String) : Prop := charListLe b.data a.data = true

instance : DecidableRel pathGe := fun a b => instDecidableEqBool _ _

/-- Whether a file name matches the glob pattern `*.csv`. -/
def hasCsvSuffix (s : String) : Bool :=
  List.isSuffixOf ".csv".data s.data

/-- Python `col.rpartition(":")` restricted to its first and third
components: split at the LAST colon; when the string holds no colon the
result is `("", s)` — the whole string lands in the third component and the
first component is empty. -/
def rpartitionColon (s : String) : String × String :=
  if (s.data.reverse.takeWhile (fun c => c ≠ ':')).length = s.data.length then
    ("", s)
  else
    (String.mk (s.data.take
        (s.data.length - (s.data.reverse.takeWhile (fun c => c ≠ ':')).length - 1)),
     String.mk (s.data.reverse.takeWhile (fun c => c ≠ ':')).reverse)

/-! ### Python `float(...)` on finite decimal literals, as a rational -/

/-- Numeric value of a digit run (most significant first). -/
def digitsToNat (cs : List Char) : ℕ :=
  cs.foldl (fun a c => a * 10 + (c.toNat - 48)) 0

/-- Parse an unsigned decimal literal: digits with at most one dot and at
least one digit overall.  Returns the mantissa (all digits read as one
natural number) and the number of fractional digits. -/
def parseUnsignedDec (cs : List Char) : Option (ℕ × ℕ) :=
  let ip := cs.takeWhile (fun c => c ≠ '.')
  let rest := cs.dropWhile (fun c => c ≠ '.')
  if ip.all Char.isDigit then
    match rest with
    | [] => if ip.isEmpty then none else some (digitsToNat ip, 0)
    | _ :: fp =>
      if fp.all Char.isDigit && !(ip.isEmpty && fp.isEmpty) then
        some (digitsToNat (ip ++ fp), fp.length)
      else none
  else none

/-- Python `float(s)` on the modelled fragment (finite decimal literals,
optional sign, optional surrounding whitespace); `none` models a raised
`ValueError`. -/
def parsePyFloat (s : String) : Option ℚ :=
  match stripWs s.data with
  | [] => none
  | '-' :: rest => (parseUnsignedDec rest).map (fun md => mkRat (-(md.1 : ℤ)) (10 ^ md.2))
  | '+' :: rest => (parseUnsignedDec rest).map (fun md => mkRat (md.1 : ℤ) (10 ^ md.2))
  | cs => (parseUnsignedDec cs).map (fun md => mkRat (md.1 : ℤ) (10 ^ md.2))

/-- The value extracted from one pandas cell by the body of
`create_data_points`: `none` when `pandas.notnull(value_string)` is false
(the cell is NA) or when `float(value_string.replace(",", "."))` raises
`ValueError` (the exception is logged and the cell dropped). -/
def parseCell (cell : Option String) : Option ℚ :=
  cell.bind (fun s => parsePyFloat (replaceCommaDot s))

/-! ### Data model -/

/-- Maximum number of time series batched at once (`BATCH_MAX = 1000`). -/
def BATCH_MAX : ℕ := 1000

/-- One CDP `Datapoint(timestamp=..., value=...)`: timestamp in integer
milliseconds since the epoch, value the parsed float. -/
structure Datapoint where
  timestamp : ℤ
  value : ℚ
deriving DecidableEq

/-- One `TimeseriesWithDatapoints(name=..., datapoints=...)` entry of the
batch buffer. -/
structure TSWithDP where
  name : String
  datapoints : List Datapoint
deriving DecidableEq

/-- The parsed content of a csv file, as produced by
`pandas.read_csv(csv_path, encoding="latin-1", delimiter=";", quotechar=CH,
skiprows=[1], index_col=0)`: the index column (already coerced by Python
`int(o)`, hence `ℤ`) and the value columns as `(header, cells)` pairs in
file order.  The skipped units row is not represented. -/
structure DataFrame where
  index : List ℤ
  cols : List (String × List (Option String))
deriving DecidableEq

/-- A file handed to `process_files`: its path and its parse result —
`none` models `pandas.read_csv` raising (the file fails with a parse
error). -/
structure CsvFile where
  path : String
  df : Option DataFrame
deriving DecidableEq

/-- A directory entry seen by `folder_path.glob`: the path and the result of
`path.stat().st_mtime` — `none` models the stat call raising `IOError`
(file vanished), which the scanner logs and skips. -/
structure DirEntry where
  path : String
  stat : Option ℚ
deriving DecidableEq

/-! ### `create_data_points` (lines 100–113) -/

/-- `create_data_points(values, timestamps)`: for each index `i`, keep the
cell iff it is non-null and parses as a float after comma normalization, and
pair it with `timestamps[i]`.  (In every call site the two lists have equal
length, so pairing by `zip` matches Python's `enumerate` indexing.) -/
def create_data_points (values : List (Option String)) (timestamps : List ℤ) :
    List Datapoint :=
  (values.zip timestamps).filterMap
    (fun vt => (parseCell vt.1).map (fun q => ⟨vt.2, q⟩))

/-! ### `process_csv_file` (lines 116–159) -/

/-- Line 129: `name = col.rpartition(":")[2].strip()`. -/
def header_name (col : String) : String :=
  pyStrip (rpartitionColon col).2

/-- Line 130: `external_id = col.rpartition(":")[0].strip()`. -/
def header_external_id (col : String) : String :=
  pyStrip (rpartitionColon col).1

/-- The mutable state of `process_csv_file`: the batch buffer
`current_time_series`, the batches handed to
`post_multi_time_series_datapoints` so far (in order), the
`existing_time_series` cache (association list: external id → name), the
registration calls attempted so far (external id, and whether the remote
`post_time_series` call raised — the outcome `_log_error` swallowed), and
`count_of_data_points`. -/
structure ProcState where
  buffer : List TSWithDP
  flushes : List (List TSWithDP)
  cache : List (String × String)
  registered : List (String × Bool)
  count : ℕ
deriving DecidableEq

/-- One iteration of the `for col in df` loop of `process_csv_file`
(lines 124–150): auto-flush when the buffer is full, resolve the header,
register the external id on a cache miss (the call's failure is logged and
swallowed by `_log_error`; the cache is updated regardless), extract the
column's data points, and append a batch entry when any points exist. -/
def process_column (regFails : String → Bool) (timestamps : List ℤ)
    (st : ProcState) (col : String × List (Option String)) : ProcState :=
  let st :=
    if BATCH_MAX ≤ st.buffer.length then
      { st with flushes := st.flushes ++ [st.buffer], buffer := [] }
    else st
  let name := header_name col.1
  let ext := header_external_id col.1
  let st :=
    if (st.cache.lookup ext).isNone then
      { st with
        registered := st.registered ++ [(ext, regFails ext)],
        cache := st.cache ++ [(ext, name)] }
    else st
  let dps := create_data_points col.2 timestamps
  if dps.isEmpty then st
  else
    { st with
      buffer := st.buffer ++ [⟨((st.cache.lookup ext).getD name), dps⟩],
      count := st.count + dps.length }

/-- The whole `for col in df` loop. -/
def process_columns (regFails : String → Bool) (timestamps : List ℤ)
    (st : ProcState) (cols : List (String × List (Option String))) : ProcState :=
  cols.foldl (process_column regFails timestamps) st

/-- `process_csv_file` up to (and excluding) its final `sys.exit(2)`:
compute `timestamps = [int(o) * 1000 for o in df.index]`, run the column
loop from an empty buffer, and flush the remainder when the buffer is
non-empty (`if current_time_series:` — the final flush does not clear the
buffer). -/
def process_csv_file (regFails : String → Bool) (df : DataFrame)
    (cache : List (String × String)) : ProcState :=
  let timestamps := df.index.map (fun o => o * 1000)
  let st := process_columns regFails timestamps ⟨[], [], cache, [], 0⟩ df.cols
  if st.buffer.isEmpty then st
  else { st with flushes := st.flushes ++ [st.buffer] }

/-! ### `process_files` (lines 162–177) -/

/-- Where a watched file ends up after `process_files` ran. -/
inductive Disp where
  /-- `path.unlink()` ran: the file was removed from the watch directory. -/
  | deleted
  /-- `path.replace(failed_path.joinpath(path.name))` ran: the file was
  moved into the `failed/` subdirectory. -/
  | quarantined
  /-- The file is still at its original path. -/
  | leftInPlace
  /-- The loop never reached this file. -/
  | unprocessed
deriving DecidableEq

/-- The observable result of one `process_files` call: the disposition of
every path of the batch (in batch order), the exit code when the run was
terminated by `sys.exit`, the final `time_series_cache`, and the batches
delivered to the remote store. -/
structure RunResult where
  dispositions : List (String × Disp)
  exitCode : Option ℕ
  cache : List (String × String)
  flushes : List (List TSWithDP)
deriving DecidableEq

/-- `process_files(client, prometheus, paths, time_series_cache, failed_path)`.
For each file: `process_csv_file` either raises an ordinary exception while
parsing (modelled by `df = none`; the file is then moved to `failed/` when
`--move-failed` gave a `failed_path`, else left in place, and the loop
continues), or it runs to completion — in which case its final line
`sys.exit(2)` raises `SystemExit`, which neither `except Exception` nor
`except IOError` catches: the run terminates with exit code 2, `path.unlink()`
is never reached, and the remaining paths are never processed.  Filesystem
errors during delete/move (the outer `except IOError`) are not modelled:
disposition calls succeed. -/
def process_files (regFails : String → Bool) (quarantine : Bool) :
    List CsvFile → List (String × String) → RunResult
  | [], cache => ⟨[], none, cache, []⟩
  | f :: rest, cache =>
    match f.df with
    | none =>
      let d := if quarantine then Disp.quarantined else Disp.leftInPlace
      let r := process_files regFails quarantine rest cache
      ⟨(f.path, d) :: r.dispositions, r.exitCode, r.cache, r.flushes⟩
    | some df =>
      let st := process_csv_file regFails df cache
      ⟨(f.path, Disp.leftInPlace) :: rest.map (fun g => (g.path, Disp.unprocessed)),
        some 2, st.cache, st.flushes⟩

/-! ### `find_files_in_path` (lines 179–194) -/

/-- Python `int(x)`: truncation toward zero.  For `x = num/den` with
`den > 0` this is T-division of the numerator by the denominator. -/
def pyInt (q : ℚ) : ℤ :=
  Int.tdiv q.num q.den

/-- Line 181, `before_timestamp = int(time.time() - 2)`, written without
rational subtraction: `now − 2 = (num − 2·den)/den`, truncated toward
zero. -/
def before_timestamp (now : ℚ) : ℤ :=
  Int.tdiv (now.num - 2 * now.den) now.den

/-- The `all_relevant_paths` accumulated by the scan loop (lines 184–191):
every `*.csv` entry of the directory whose stat succeeded and whose
modification time lies strictly between `after_timestamp` and
`int(now - 2)`; an entry whose stat raised (`stat = none`) is logged and
skipped. -/
def relevant_paths (entries : List DirEntry) (now after_timestamp : ℚ) :
    List String :=
  entries.filterMap (fun e =>
    if hasCsvSuffix e.path then
      match e.stat with
      | none => none
      | some m =>
        if after_timestamp < m ∧ m < ((before_timestamp now : ℤ) : ℚ) then
          some e.path
        else none
    else none)

/-- `find_files_in_path(folder_path, after_timestamp, limit, newest_first)`:
filter the directory to the relevant csv paths, sort the PATHS
(`sorted(all_relevant_paths, reverse=newest_first)` — Python sorts the
`Path` objects themselves, i.e. lexicographically by path string, not by
modification time), and truncate to `limit` when `limit` is truthy
(`paths if not limit else paths[:limit]`, so a limit of `0` is falsy and
means no truncation).  Python's stable `sorted` is modelled by a stable
insertion sort over the same order. -/
def find_files_in_path (entries : List DirEntry) (now after_timestamp : ℚ)
    (limit : Option ℕ) (newest_first : Bool) : List String :=
  let rel := relevant_paths entries now after_timestamp
  let paths := if newest_first then rel.insertionSort pathGe
               else rel.insertionSort pathLe
  match limit with
  | none => paths
  | some l => if l = 0 then paths else paths.take l

/-! ### the live loop of `extract_data_points` (lines 214–232) -/

/-- A file of the watch directory as the live loop sees it: its path, its
stat result, and its parse result. -/
structure LiveFile where
  path : String
  stat : Option ℚ
  df : Option DataFrame
deriving DecidableEq

/-- The state carried across live poll cycles: the watermark handed to the
scanner (`start_timestamp` — the source never rebinds it inside the
`while True` loop), the current directory contents, the series cache, and
whether a `SystemExit` already terminated the process. -/
structure LiveState where
  watermark : ℚ
  files : List LiveFile
  cache : List (String × String)
  exited : Bool
deriving DecidableEq

/-- One iteration of the live `while True` loop: new files may have arrived
since the previous cycle; scan with `find_files_in_path(folder_path,
start_timestamp, limit=20)` (newest first by default), process the picked
paths in order, and remove from the directory every file whose disposition
was deletion or quarantine.  The watermark field is copied unchanged, because
the loop body never assigns `start_timestamp`.  When the process has already
exited, nothing further happens. -/
def live_cycle (regFails : String → Bool) (quarantine : Bool)
    (now : ℚ) (arrivals : List LiveFile) (st : LiveState) : LiveState :=
  if st.exited then st
  else
    let files := st.files ++ arrivals
    let entries := files.map (fun f => (⟨f.path, f.stat⟩ : DirEntry))
    let picked := find_files_in_path entries now st.watermark (some 20) true
    let csvs := picked.filterMap (fun p =>
      (files.find? (fun f => f.path = p)).map (fun f => (⟨f.path, f.df⟩ : CsvFile)))
    let r := process_files regFails quarantine csvs st.cache
    let files' := files.filter (fun f =>
      match r.dispositions.lookup f.path with
      | some Disp.deleted => false
      | some Disp.quarantined => false
      | _ => true)
    ⟨st.watermark, files', r.cache, st.exited || r.exitCode.isSome⟩

/-- Run the live loop for a given sequence of cycles; each cycle supplies
the wall-clock time observed by `find_files_in_path` and the files that
arrived since the previous cycle. -/
def live_run (regFails : String → Bool) (quarantine : Bool)
    (st : LiveState) (cycles : List (ℚ × List LiveFile)) : LiveState :=
  cycles.foldl (fun s c => live_cycle regFails quarantine c.1 c.2 s) st

/-- The remote-visible observation of a `process_csv_file` state: the
buffer, the delivered batches, the cache, WHICH external ids had a
registration call issued (but not the swallowed outcome of that call), and
the data-point count. -/
def obs (st : ProcState) :
    List TSWithDP × List (List TSWithDP) × List (String × String) × List String × ℕ :=
  (st.buffer, st.flushes, st.cache, st.registered.map Prod.fst, st.count)

/-! ## Helper lemmas -/

/-- `takeWhile` consumes a whole block that satisfies the predicate and stops
at the first failing element. -/
lemma takeWhile_append_stop {α : Type} (q : α → Bool) (l₁ : List α) (a : α)
    (l₂ : List α) (h₁ : ∀ x ∈ l₁, q x = true) (ha : q a = false) :
    (l₁ ++ a :: l₂).takeWhile q = l₁ := by
  induction l₁ with
  | nil => simp [List.takeWhile_cons, ha]
  | cons x xs ih =>
    have hx : q x = true := h₁ x (by simp)
    simp only [List.cons_append, List.takeWhile_cons, hx, if_true]
    rw [ih (fun y hy => h₁ y (by simp [hy]))]

/-- `takeWhile` keeps a list all of whose elements satisfy the predicate. -/
lemma takeWhile_all {α : Type} (q : α → Bool) (l : List α)
    (h : ∀ x ∈ l, q x = true) : l.takeWhile q = l := by
  induction l with
  | nil => rfl
  | cons x xs ih =>
    have hx : q x = true := h x (by simp)
    simp only [List.takeWhile_cons, hx, if_true]
    rw [ih (fun y hy => h y (by simp [hy]))]

/-- `rpartitionColon` on a header of the form `<p>:<n>` where neither side
holds a colon splits exactly at that colon. -/
lemma rpartitionColon_append (p n : String)
    (hp : ':' ∉ p.data) (hn : ':' ∉ n.data) :
    rpartitionColon (p ++ ":" ++ n) = (p, n) := by
  have hdata : (p ++ ":" ++ n).data = p.data ++ ':' :: n.data := by
    simp [String.data_append]
  have hrev : (p ++ ":" ++ n).data.reverse = n.data.reverse ++ ':' :: p.data.reverse := by
    simp [hdata]
  have htake :
      ((p ++ ":" ++ n).data.reverse.takeWhile (fun c => c ≠ ':')) = n.data.reverse := by
    rw [hrev]
    refine takeWhile_append_stop _ _ _ _ ?_ (by simp)
    intro x hx
    simp only [List.mem_reverse] at hx
    simp only [decide_eq_true_eq]
    exact fun h => hn (h ▸ hx)
  have hlen : (p ++ ":" ++ n).data.length = p.data.length + 1 + n.data.length := by
    simp [hdata]
    omega
  unfold rpartitionColon
  rw [htake]
  have hne : ¬ (n.data.reverse.length = (p ++ ":" ++ n).data.length) := by
    simp [hlen]
    omega
  rw [if_neg hne]
  have harith :
      (p ++ ":" ++ n).data.length - n.data.reverse.length - 1 = p.data.length := by
    simp [hlen]
    omega
  rw [harith]
  have htakep : (p ++ ":" ++ n).data.take p.data.length = p.data := by
    rw [hdata]
    have := List.take_left p.data (':' :: n.data)
    simpa using this
  rw [htakep]
  simp

/-- `rpartitionColon` on a colon-free string yields `("", s)`. -/
lemma rpartitionColon_no_colon (s : String) (hs : ':' ∉ s.data) :
    rpartitionColon s = ("", s) := by
  unfold rpartitionColon
  have htake : s.data.reverse.takeWhile (fun c => c ≠ ':') = s.data.reverse := by
    refine takeWhile_all _ _ ?_
    intro x hx
    simp only [List.mem_reverse] at hx
    simp only [decide_eq_true_eq]
    exact fun h => hs (h ▸ hx)
  rw [htake]
  simp

/-! ## C4 — header parsing -/

/-- C4, counterexample: for the colon-free header `"temperature"` the code
sets the external identifier to the EMPTY string, not to the whole header;
the claim that the whole header is used as both name and identifier is false
at this input. -/
theorem C4_counterexample :
    header_external_id "temperature" = "" ∧
    header_name "temperature" = "temperature" ∧
    ("temperature" : String) ≠ "" := by
  refine ⟨by decide, by decide, by decide⟩

/-- C4 (amended): for a header `<p>:<n>` whose sides are colon-free the
series name is the (whitespace-stripped) segment after the colon and the
external identifier the (stripped) segment before it; for a colon-free
header the name is the whole (stripped) header while the external identifier
is the EMPTY string. -/
theorem C4_header_parsing :
    (∀ p n : String, ':' ∉ p.data → ':' ∉ n.data →
      header_name (p ++ ":" ++ n) = pyStrip n ∧
      header_external_id (p ++ ":" ++ n) = pyStrip p) ∧
    (∀ s : String, ':' ∉ s.data →
      header_name s = pyStrip s ∧ header_external_id s = "") := by
  constructor
  · intro p n hp hn
    unfold header_name header_external_id
    rw [rpartitionColon_append p n hp hn]
    exact ⟨rfl, rfl⟩
  · intro s hs
    unfold header_name header_external_id
    rw [rpartitionColon_no_colon s hs]
    exact ⟨rfl, show pyStrip "" = "" by decide⟩

/-- C4, witness: the amended statement evaluated at headers `"pre:suf"` and
`"temp"`. -/
theorem C4_witness :
    (header_name ("pre" ++ ":" ++ "suf") = pyStrip "suf" ∧
      header_external_id ("pre" ++ ":" ++ "suf") = pyStrip "pre") ∧
    (header_name "temp" = pyStrip "temp" ∧ header_external_id "temp" = "") :=
  ⟨C4_header_parsing.1 "pre" "suf" (by decide) (by decide),
   C4_header_parsing.2 "temp" (by decide)⟩

/-! ## C7 — locale numeric parsing and cell dropping -/

/-- C7: the string `"12,5"` is parsed, after comma normalization, as the
rational 12.5; an empty, null or unparseable cell yields no value; and a
dropped cell removes exactly that (series, timestamp) pair, leaving the
data points of the rest of the column untouched. -/
theorem C7_locale_parsing :
    (∀ t : ℤ, create_data_points [some "12,5"] [t] = [⟨t, mkRat 25 2⟩]) ∧
    parseCell (some "") = none ∧
    parseCell none = none ∧
    parseCell (some "N/A") = none ∧
    (∀ (vs₁ vs₂ : List (Option String)) (ts₁ ts₂ : List ℤ)
        (c : Option String) (t : ℤ),
      vs₁.length = ts₁.length → parseCell c = none →
      create_data_points (vs₁ ++ c :: vs₂) (ts₁ ++ t :: ts₂) =
        create_data_points vs₁ ts₁ ++ create_data_points vs₂ ts₂) := by
  refine ⟨?_, by decide, by decide, by decide, ?_⟩
  · intro t
    have h : parseCell (some "12,5") = some (mkRat 25 2) := by decide
    simp [create_data_points, h]
  · intro vs₁ vs₂ ts₁ ts₂ c t hlen hc
    unfold create_data_points
    rw [List.zip_append hlen, List.filterMap_append, List.zip_cons_cons,
      List.filterMap_cons]
    simp [hc]

/-- C7, witness: the parsing and dropping behavior at concrete inputs — the
cell `"12,5"` at timestamp 5, and an empty cell dropped from the middle of a
column. -/
theorem C7_witness :
    create_data_points [some "12,5"] [(5 : ℤ)] = [⟨5, mkRat 25 2⟩] ∧
    create_data_points ([some "1"] ++ (some "") :: [some "2"])
        ([(0 : ℤ)] ++ (7 : ℤ) :: [(9 : ℤ)]) =
      create_data_points [some "1"] [(0 : ℤ)] ++ create_data_points [some "2"] [(9 : ℤ)] :=
  ⟨C7_locale_parsing.1 5,
   C7_locale_parsing.2.2.2.2 [some "1"] [some "2"] [0] [9] (some "") 7
     (by decide) (by decide)⟩

/-! ## C3 — ordering of the file listing -/

/-- C3: `find_files_in_path` sorts the accepted PATHS lexicographically
(`sorted(all_relevant_paths, reverse=newest_first)` compares the `Path`
objects, not their modification times).  With `a.csv` modified at 100 and
`b.csv` modified at 50, live mode (newest first) returns `b.csv` first even
though `a.csv` is newer, and historical mode returns `a.csv` first even
though `b.csv` is older: the returned order is by path name, not by
modification time. -/
theorem C3_path_sort_eval :
    find_files_in_path [⟨"a.csv", some 100⟩, ⟨"b.csv", some 50⟩] 200 0 none true =
      ["b.csv", "a.csv"] ∧
    find_files_in_path [⟨"a.csv", some 100⟩, ⟨"b.csv", some 50⟩] 200 0 none false =
      ["a.csv", "b.csv"] ∧
    (50 : ℚ) < 100 := by
  refine ⟨by decide, by decide, by decide⟩

/-! ## C8 — scan filter and quiet period -/

/-- C8, counterexample: the code cuts off at `int(now − 2)` (whole seconds,
truncated), not at `now − 2`.  With `now = 102.5` the cutoff is `⌊100.5⌋ =
100`, so a file modified at `100.2` — strictly older than `now − 2` and
strictly newer than `afterTimestamp = 0`, hence a candidate according to the
claim — is excluded from the scan. -/
theorem C8_counterexample :
    relevant_paths [⟨"f.csv", some (mkRat 501 5)⟩] (mkRat 205 2) 0 = [] ∧
    find_files_in_path [⟨"f.csv", some (mkRat 501 5)⟩] (mkRat 205 2) 0 none true = [] ∧
    (0 : ℚ) < mkRat 501 5 ∧ mkRat 501 5 < mkRat 205 2 - 2 := by
  refine ⟨by decide, by decide, by decide, ?_⟩
  rw [Rat.mkRat_eq_div, Rat.mkRat_eq_div]
  norm_num

/-- C8 (amended): a path is among the scan's candidates exactly when it is a
`*.csv` entry of the directory whose stat call succeeded and whose
modification time is strictly greater than `afterTimestamp` and strictly
less than `int(now − 2)` (now minus the 2-second quiet period, truncated
toward zero to whole seconds); an entry whose stat call fails is skipped
(logged) rather than failing the scan; and an unlimited listing returns
exactly the candidates (reordered). -/
theorem C8_scan_filter (entries : List DirEntry) (now after : ℚ) (p : String) :
    (p ∈ relevant_paths entries now after ↔
      hasCsvSuffix p = true ∧ ∃ m : ℚ, (⟨p, some m⟩ : DirEntry) ∈ entries ∧
        after < m ∧ m < ((before_timestamp now : ℤ) : ℚ)) ∧
    (∀ nf : Bool, p ∈ find_files_in_path entries now after none nf ↔
      p ∈ relevant_paths entries now after) := by
  constructor
  · unfold relevant_paths
    rw [List.mem_filterMap]
    constructor
    · rintro ⟨e, he, hfe⟩
      by_cases hcsv : hasCsvSuffix e.path
      · rw [if_pos hcsv] at hfe
        match hstat : e.stat with
        | none => rw [hstat] at hfe; exact absurd hfe (by simp)
        | some m =>
          rw [hstat] at hfe
          dsimp only at hfe
          by_cases hcond : after < m ∧ m < ((before_timestamp now : ℤ) : ℚ)
          · rw [if_pos hcond] at hfe
            obtain rfl : e.path = p := by simpa using hfe
            refine ⟨hcsv, m, ?_, hcond⟩
            have : e = ⟨e.path, some m⟩ := by cases e; simp_all
            rwa [this] at he
          · rw [if_neg hcond] at hfe; exact absurd hfe (by simp)
      · rw [if_neg hcsv] at hfe; exact absurd hfe (by simp)
    · rintro ⟨hcsv, m, hmem, hcond⟩
      refine ⟨⟨p, some m⟩, hmem, ?_⟩
      simp only [hcsv, if_true]
      rw [if_pos hcond]
  · intro nf
    unfold find_files_in_path
    cases nf with
    | true =>
      simpa using (List.perm_insertionSort pathGe
        (relevant_paths entries now after)).mem_iff
    | false =>
      simpa using (List.perm_insertionSort pathLe
        (relevant_paths entries now after)).mem_iff

/-! ## C1 — file disposition -/

/-- C1: `process_csv_file` ends in an unconditional `sys.exit(2)`, and
`SystemExit` is caught neither by `except Exception` nor by `except
IOError`.  Evaluating a two-file batch whose first file parses and delivers
successfully: the run terminates with exit code 2, the successful file is
left at its original path — NOT deleted — and the second file is never
processed.  For files that raise an ordinary parse exception the
disposition clauses do hold (quarantined when enabled, left in place when
disabled, and the loop continues) until the first success kills the run. -/
theorem C1_sysexit_eval :
    process_files (fun _ => false) true
        [⟨"a.csv", some ⟨[], []⟩⟩, ⟨"b.csv", some ⟨[], []⟩⟩] [] =
      ⟨[("a.csv", Disp.leftInPlace), ("b.csv", Disp.unprocessed)], some 2, [], []⟩ ∧
    Disp.leftInPlace ≠ Disp.deleted ∧
    process_files (fun _ => false) true
        [⟨"c.csv", none⟩, ⟨"d.csv", some ⟨[], []⟩⟩] [] =
      ⟨[("c.csv", Disp.quarantined), ("d.csv", Disp.leftInPlace)], some 2, [], []⟩ ∧
    process_files (fun _ => false) false [⟨"c.csv", none⟩] [] =
      ⟨[("c.csv", Disp.leftInPlace)], none, [], []⟩ := by
  refine ⟨by decide, by decide, by decide, by decide⟩

/-! ## C2 — live-mode watermark -/

/-- One live cycle leaves the watermark untouched: the loop body of
`extract_data_points` never rebinds `start_timestamp`. -/
lemma live_cycle_watermark (rf : String → Bool) (q : Bool) (now : ℚ)
    (arr : List LiveFile) (st : LiveState) :
    (live_cycle rf q now arr st).watermark = st.watermark := by
  unfold live_cycle
  split
  · rfl
  · rfl

/-- Any number of live cycles leaves the watermark untouched. -/
lemma live_run_watermark (rf : String → Bool) (q : Bool) (st : LiveState)
    (cycles : List (ℚ × List LiveFile)) :
    (live_run rf q st cycles).watermark = st.watermark := by
  induction cycles generalizing st with
  | nil => rfl
  | cons c cs ih =>
    unfold live_run at ih ⊢
    rw [List.foldl_cons, ih, live_cycle_watermark]

/-- C2: across successive poll cycles the watermark handed to the scanner is
monotonically non-decreasing (it is in fact constant, because the loop never
rebinds `start_timestamp`), and in particular it never advances past any
modification time it had not already passed before the first cycle — so it
advances past a file's modification time only if that was already the case
initially, which vacuously satisfies the only-after-disposition condition. -/
theorem C2_watermark_monotone (rf : String → Bool) (q : Bool) (st : LiveState)
    (cycles : List (ℚ × List LiveFile)) :
    (∀ k l : ℕ, k ≤ l →
      (live_run rf q st (cycles.take k)).watermark ≤
        (live_run rf q st (cycles.take l)).watermark) ∧
    (∀ m : ℚ, m < (live_run rf q st cycles).watermark → m < st.watermark) := by
  constructor
  · intro k l _
    rw [live_run_watermark, live_run_watermark]
  · intro m hm
    rwa [live_run_watermark] at hm

/-- C2, witness: the watermark after zero and after one cycle of a concrete
live run, and the non-advancement property at a concrete bound. -/
theorem C2_witness :
    (live_run (fun _ => false) false ⟨0, [], [], false⟩
        (List.take 0 [((10 : ℚ), ([] : List LiveFile))])).watermark ≤
      (live_run (fun _ => false) false ⟨0, [], [], false⟩
        (List.take 1 [((10 : ℚ), ([] : List LiveFile))])).watermark ∧
    ((-1 : ℚ) < (⟨0, [], [], false⟩ : LiveState).watermark) :=
  ⟨(C2_watermark_monotone (fun _ => false) false ⟨0, [], [], false⟩
      [((10 : ℚ), ([] : List LiveFile))]).1 0 1 (by decide),
   (C2_watermark_monotone (fun _ => false) false ⟨0, [], [], false⟩
      [((10 : ℚ), ([] : List LiveFile))]).2 (-1) (by decide)⟩

/-! ## C5 — registration failures are swallowed, not surfaced -/

/-- Apart from the recorded outcome of the registration call itself, one
column step is insensitive to whether registrations fail. -/
lemma process_column_obs (rf rf' : String → Bool) (ts : List ℤ)
    (c : String × List (Option String)) (st st' : ProcState)
    (h : obs st = obs st') :
    obs (process_column rf ts st c) = obs (process_column rf' ts st' c) := by
  obtain ⟨b, f, ca, r, co⟩ := st
  obtain ⟨b', f', ca', r', co'⟩ := st'
  simp only [obs, Prod.mk.injEq] at h
  obtain ⟨hb, hf, hca, hr, hco⟩ := h
  subst hb
  subst hf
  subst hca
  subst hco
  unfold process_column
  dsimp only
  split_ifs <;> simp_all [obs, List.map_append]

/-- The whole column loop is insensitive to registration outcomes. -/
lemma process_columns_obs (rf rf' : String → Bool) (ts : List ℤ)
    (cols : List (String × List (Option String))) :
    ∀ (st st' : ProcState), obs st = obs st' →
      obs (process_columns rf ts st cols) = obs (process_columns rf' ts st' cols) := by
  induction cols with
  | nil => intro st st' h; exact h
  | cons c cs ih =>
    intro st st' h
    unfold process_columns at ih ⊢
    rw [List.foldl_cons, List.foldl_cons]
    exact ih _ _ (process_column_obs rf rf' ts c st st' h)

/-- C5 (amended): a failing `post_time_series` registration call is logged
and swallowed by `_log_error`; the cache, the delivered batches, the set of
attempted registrations and the data-point count of `process_csv_file` are
identical to those of a run in which every registration succeeds — in
particular the column whose registration failed is still delivered, and the
remaining columns are processed the same either way. -/
theorem C5_registration_swallowed (rf rf' : String → Bool) (df : DataFrame)
    (cache : List (String × String)) :
    obs (process_csv_file rf df cache) = obs (process_csv_file rf' df cache) := by
  unfold process_csv_file
  dsimp only
  have h := process_columns_obs rf rf' (df.index.map (fun o => o * 1000)) df.cols
    ⟨[], [], cache, [], 0⟩ ⟨[], [], cache, [], 0⟩ rfl
  revert h
  generalize process_columns rf (df.index.map (fun o => o * 1000))
    ⟨[], [], cache, [], 0⟩ df.cols = s1
  generalize process_columns rf' (df.index.map (fun o => o * 1000))
    ⟨[], [], cache, [], 0⟩ df.cols = s2
  intro h
  obtain ⟨b1, f1, ca1, r1, co1⟩ := s1
  obtain ⟨b2, f2, ca2, r2, co2⟩ := s2
  simp only [obs, Prod.mk.injEq] at h
  obtain ⟨hb, hf, hca, hr, hco⟩ := h
  subst hb
  subst hf
  subst hca
  subst hco
  split_ifs <;> simp_all [obs]

/-- C5, counterexample: with a remote store on which EVERY registration
call raises, processing a one-column file still registers the column's
external id (the attempt is recorded as failed), still caches the mapping,
and still delivers the column's data points in a flushed batch — the claim
that a failed registration makes the column's processing fail, leaving its
points undelivered, is false at this input. -/
theorem C5_counterexample :
    (process_csv_file (fun _ => true) ⟨[1], [("x:y", [some "3"])]⟩ []).registered =
      [("x", true)] ∧
    (process_csv_file (fun _ => true) ⟨[1], [("x:y", [some "3"])]⟩ []).flushes =
      [[⟨"y", [⟨1000, 3⟩]⟩]] ∧
    (process_csv_file (fun _ => true) ⟨[1], [("x:y", [some "3"])]⟩ []).count = 1 := by
  refine ⟨by decide, by decide, by decide⟩

/-! ## C6 — batch-size bound -/

/-- A column step on a buffer that is not yet full and whose column yields
data points: no flush happens and the buffer grows by one entry. -/
lemma process_column_notfull (rf : String → Bool) (ts : List ℤ)
    (st : ProcState) (c : String × List (Option String))
    (hb : st.buffer.length < BATCH_MAX)
    (hne : (create_data_points c.2 ts).isEmpty = false) :
    (process_column rf ts st c).buffer.length = st.buffer.length + 1 ∧
    (process_column rf ts st c).flushes = st.flushes := by
  have hcond : ¬ (BATCH_MAX ≤ st.buffer.length) := by omega
  unfold process_column
  dsimp only
  rw [if_neg hcond]
  split_ifs <;> simp_all

/-- A column step on a FULL buffer whose column yields data points: the
buffer is flushed as one batch and the new entry starts a fresh buffer. -/
lemma process_column_full (rf : String → Bool) (ts : List ℤ)
    (st : ProcState) (c : String × List (Option String))
    (hb : st.buffer.length = BATCH_MAX)
    (hne : (create_data_points c.2 ts).isEmpty = false) :
    (process_column rf ts st c).buffer.length = 1 ∧
    (process_column rf ts st c).flushes = st.flushes ++ [st.buffer] := by
  have hcond : BATCH_MAX ≤ st.buffer.length := by omega
  unfold process_column
  dsimp only
  rw [if_pos hcond]
  split_ifs <;> simp_all

/-- While the buffer has room for the whole remaining column list, the
column loop only appends: no flush is issued. -/
lemma process_columns_no_flush (rf : String → Bool) (ts : List ℤ) :
    ∀ (cols : List (String × List (Option String))) (st : ProcState),
      (∀ c ∈ cols, (create_data_points c.2 ts).isEmpty = false) →
      st.buffer.length + cols.length ≤ BATCH_MAX →
      (process_columns rf ts st cols).buffer.length = st.buffer.length + cols.length ∧
      (process_columns rf ts st cols).flushes = st.flushes := by
  intro cols
  induction cols with
  | nil =>
    intro st _ _
    exact ⟨by simp [process_columns], rfl⟩
  | cons c cs ih =>
    intro st hprod hle
    have hc := hprod c (by simp)
    have hlt : st.buffer.length < BATCH_MAX := by
      simp only [List.length_cons] at hle
      omega
    obtain ⟨h1, h2⟩ := process_column_notfull rf ts st c hlt hc
    unfold process_columns at ih ⊢
    rw [List.foldl_cons]
    obtain ⟨ih1, ih2⟩ := ih (process_column rf ts st c)
      (fun x hx => hprod x (by simp [hx]))
      (by simp only [List.length_cons] at hle; omega)
    refine ⟨?_, by rw [ih2, h2]⟩
    rw [ih1, h1]
    simp only [List.length_cons]
    omega

/-- Stepping one column preserves the invariant that the buffer holds at
most `BATCH_MAX` entries and every issued batch is non-empty with at most
`BATCH_MAX` entries. -/
lemma process_column_flush_inv (rf : String → Bool) (ts : List ℤ)
    (st : ProcState) (c : String × List (Option String))
    (hb : st.buffer.length ≤ BATCH_MAX)
    (hf : ∀ b ∈ st.flushes, b.length ≤ BATCH_MAX ∧ b ≠ []) :
    (process_column rf ts st c).buffer.length ≤ BATCH_MAX ∧
    ∀ b ∈ (process_column rf ts st c).flushes, b.length ≤ BATCH_MAX ∧ b ≠ [] := by
  have hBM : BATCH_MAX = 1000 := rfl
  unfold process_column
  dsimp only
  by_cases hfull : BATCH_MAX ≤ st.buffer.length
  · rw [if_pos hfull]
    have hbne : st.buffer ≠ [] := by
      intro h
      rw [h] at hfull
      simp at hfull
      omega
    have hmem : ∀ b, b ∈ st.flushes ++ [st.buffer] →
        b.length ≤ BATCH_MAX ∧ b ≠ [] := by
      intro b hbm
      rcases List.mem_append.mp hbm with hbm | hbm
      · exact hf b hbm
      · rw [List.mem_singleton] at hbm
        subst hbm
        exact ⟨hb, hbne⟩
    split_ifs <;> constructor <;>
      first
        | (simp only [List.length_append, List.length_nil, List.length_cons]; omega)
        | exact hmem
  · rw [if_neg hfull]
    split_ifs <;> constructor <;>
      first
        | (simp only [List.length_append, List.length_nil, List.length_cons]; omega)
        | exact hf
        | exact hb

/-- The column loop preserves the batch invariant. -/
lemma process_columns_flush_inv (rf : String → Bool) (ts : List ℤ) :
    ∀ (cols : List (String × List (Option String))) (st : ProcState),
      st.buffer.length ≤ BATCH_MAX →
      (∀ b ∈ st.flushes, b.length ≤ BATCH_MAX ∧ b ≠ []) →
      (process_columns rf ts st cols).buffer.length ≤ BATCH_MAX ∧
      ∀ b ∈ (process_columns rf ts st cols).flushes,
        b.length ≤ BATCH_MAX ∧ b ≠ [] := by
  intro cols
  induction cols with
  | nil => intro st hb hf; exact ⟨hb, hf⟩
  | cons c cs ih =>
    intro st hb hf
    unfold process_columns at ih ⊢
    rw [List.foldl_cons]
    obtain ⟨h1, h2⟩ := process_column_flush_inv rf ts st c hb hf
    exact ih _ h1 h2

/-- Every batch `process_csv_file` hands to
`post_multi_time_series_datapoints` — the auto-flushes and the final
flush — is non-empty and holds at most `BATCH_MAX` series entries. -/
lemma process_csv_file_flushes (rf : String → Bool) (df : DataFrame)
    (cache : List (String × String)) :
    ∀ b ∈ (process_csv_file rf df cache).flushes,
      b.length ≤ BATCH_MAX ∧ b ≠ [] := by
  unfold process_csv_file
  dsimp only
  obtain ⟨h1, h2⟩ := process_columns_flush_inv rf (df.index.map (fun o => o * 1000))
    df.cols ⟨[], [], cache, [], 0⟩ (by simp [BATCH_MAX]) (by simp)
  revert h1 h2
  generalize process_columns rf (df.index.map (fun o => o * 1000))
    ⟨[], [], cache, [], 0⟩ df.cols = s
  intro h1 h2
  split_ifs with hemp
  · exact h2
  · intro b hb
    rw [List.mem_append] at hb
    rcases hb with hb | hb
    · exact h2 b hb
    · rw [List.mem_singleton] at hb
      subst hb
      exact ⟨h1, by simpa using hemp⟩

/-- C6: starting from an empty buffer, a file whose 1001 columns each
contribute one series entry triggers exactly one automatic flush, of
exactly `BATCH_MAX = 1000` entries, and ends the loop with exactly one
entry buffered; and in general every remote append call (auto or final) is
issued with at most `BATCH_MAX` entries in the batch. -/
theorem C6_batch_bound :
    (∀ (rf : String → Bool) (ts : List ℤ) (cache : List (String × String))
        (cols : List (String × List (Option String))),
      cols.length = 1001 →
      (∀ c ∈ cols, (create_data_points c.2 ts).isEmpty = false) →
      (process_columns rf ts ⟨[], [], cache, [], 0⟩ cols).flushes.length = 1 ∧
      (∀ b ∈ (process_columns rf ts ⟨[], [], cache, [], 0⟩ cols).flushes,
        b.length = BATCH_MAX) ∧
      (process_columns rf ts ⟨[], [], cache, [], 0⟩ cols).buffer.length = 1) ∧
    (∀ (rf : String → Bool) (df : DataFrame) (cache : List (String × String)),
      ∀ b ∈ (process_csv_file rf df cache).flushes, b.length ≤ BATCH_MAX) := by
  constructor
  · intro rf ts cache cols hlen hprod
    have hne : cols ≠ [] := by
      intro h
      rw [h] at hlen
      simp at hlen
    obtain ⟨cs, c, rfl, hcs⟩ : ∃ cs c, cols = cs ++ [c] ∧ cs.length = 1000 := by
      refine ⟨cols.dropLast, cols.getLast hne,
        (List.dropLast_append_getLast hne).symm, ?_⟩
      rw [List.length_dropLast, hlen]
    have hsplit :
        process_columns rf ts ⟨[], [], cache, [], 0⟩ (cs ++ [c]) =
          process_column rf ts (process_columns rf ts ⟨[], [], cache, [], 0⟩ cs) c := by
      unfold process_columns
      rw [List.foldl_append, List.foldl_cons, List.foldl_nil]
    obtain ⟨ha1, ha2⟩ := process_columns_no_flush rf ts cs ⟨[], [], cache, [], 0⟩
      (fun x hx => hprod x (by simp [hx]))
      (by simp [hcs, BATCH_MAX])
    have hbuf : (process_columns rf ts ⟨[], [], cache, [], 0⟩ cs).buffer.length =
        BATCH_MAX := by
      rw [ha1, hcs]
      simp [BATCH_MAX]
    have hcprod : (create_data_points c.2 ts).isEmpty = false :=
      hprod c (by simp)
    obtain ⟨hf1, hf2⟩ := process_column_full rf ts
      (process_columns rf ts ⟨[], [], cache, [], 0⟩ cs) c hbuf hcprod
    rw [hsplit, hf2, ha2]
    refine ⟨by simp, ?_, hf1⟩
    intro b hb
    simp only [List.nil_append, List.mem_singleton] at hb
    subst hb
    exact hbuf
  · intro rf df cache b hb
    exact (process_csv_file_flushes rf df cache b hb).1

/-- C6, witness: a 1001-column file (each column holding the single
parseable cell `"1"`), and a concrete flushed batch of the one-column file
`[("x:y", ["3"])]`. -/
theorem C6_witness :
    ((process_columns (fun _ => false) [0] ⟨[], [], [], [], 0⟩
        (List.replicate 1001 ("a:b", [some "1"]))).flushes.length = 1 ∧
      (∀ b ∈ (process_columns (fun _ => false) [0] ⟨[], [], [], [], 0⟩
          (List.replicate 1001 ("a:b", [some "1"]))).flushes,
        b.length = BATCH_MAX) ∧
      (process_columns (fun _ => false) [0] ⟨[], [], [], [], 0⟩
        (List.replicate 1001 ("a:b", [some "1"]))).buffer.length = 1) ∧
    ([⟨"y", [⟨1000, 3⟩]⟩] : List TSWithDP).length ≤ BATCH_MAX :=
  ⟨C6_batch_bound.1 (fun _ => false) [0] [] (List.replicate 1001 ("a:b", [some "1"]))
      (List.length_replicate 1001 ("a:b", [some "1"]))
      (by
        intro c hc
        rw [List.mem_replicate] at hc
        rw [hc.2]
        decide),
   C6_batch_bound.2 (fun _ => false) ⟨[1], [("x:y", [some "3"])]⟩ []
     [⟨"y", [⟨1000, 3⟩]⟩] (by decide)⟩

/-! ## C9 — data-point invariants -/

/-- The timestamps of the data points emitted for one column form a
sublist of the timestamp list (dropped cells remove positions but never
reorder). -/
lemma cdp_timestamps_sublist :
    ∀ (values : List (Option String)) (ts : List ℤ),
      ((create_data_points values ts).map Datapoint.timestamp).Sublist ts := by
  intro values
  induction values with
  | nil =>
    intro ts
    simp [create_data_points]
  | cons v vs ih =>
    intro ts
    cases ts with
    | nil => simp [create_data_points]
    | cons t ts' =>
      unfold create_data_points at ih ⊢
      rw [List.zip_cons_cons, List.filterMap_cons]
      cases h : parseCell v with
      | none =>
        simp only [h, Option.map_none]
        exact (ih ts').cons t
      | some q =>
        simp only [h, Option.map_some, List.map_cons]
        exact (ih ts').cons₂ t

/-- C9, counterexample: nothing in `process_csv_file` sorts the index
column.  A file whose index column is `[2, 1]` (out of order) emits the
timestamps `[2000, 1000]` for its column — a strictly DECREASING sequence —
so the claim that timestamps are non-decreasing along the emitted sequence
is false at this input. -/
theorem C9_counterexample :
    (process_csv_file (fun _ => false) ⟨[2, 1], [("a:b", [some "1", some "2"])]⟩ []).flushes =
      [[⟨"b", [⟨2000, 1⟩, ⟨1000, 2⟩]⟩]] ∧
    ¬ ((2000 : ℤ) ≤ 1000) := by
  refine ⟨by decide, by decide⟩

/-- C9 (amended): every emitted data point carries a timestamp that is an
index value of the file converted to integer milliseconds (seconds × 1000)
and a value obtained from a successful (hence non-null, finite) cell parse;
and PROVIDED the file's index column is non-decreasing — the spec derives
this from "a sorted index column" — the timestamps are non-decreasing along
the column's emitted sequence. -/
theorem C9_datapoint_invariants (values : List (Option String)) (index : List ℤ)
    (hsorted : List.Sorted (fun a b => a ≤ b) index) :
    (∀ dp ∈ create_data_points values (index.map (fun o => o * 1000)),
      ∃ o ∈ index, dp.timestamp = o * 1000) ∧
    List.Sorted (fun a b => a ≤ b)
      ((create_data_points values (index.map (fun o => o * 1000))).map
        Datapoint.timestamp) ∧
    (∀ dp ∈ create_data_points values (index.map (fun o => o * 1000)),
      ∃ c ∈ values, parseCell c = some dp.value) := by
  refine ⟨?_, ?_, ?_⟩
  · intro dp hdp
    unfold create_data_points at hdp
    rw [List.mem_filterMap] at hdp
    obtain ⟨⟨v, t⟩, hmem, hfv⟩ := hdp
    obtain ⟨q, hq, rfl⟩ := Option.map_eq_some'.mp hfv
    have ht : t ∈ index.map (fun o => o * 1000) := (List.of_mem_zip hmem).2
    rw [List.mem_map] at ht
    obtain ⟨o, ho, rfl⟩ := ht
    exact ⟨o, ho, rfl⟩
  · have hmono : List.Sorted (fun a b => a ≤ b) (index.map (fun o => o * 1000)) :=
      List.Pairwise.map (fun o => o * 1000)
        (fun a b h => mul_le_mul_of_nonneg_right h (by norm_num)) hsorted
    exact List.Pairwise.sublist (cdp_timestamps_sublist values _) hmono
  · intro dp hdp
    unfold create_data_points at hdp
    rw [List.mem_filterMap] at hdp
    obtain ⟨⟨v, t⟩, hmem, hfv⟩ := hdp
    obtain ⟨q, hq, rfl⟩ := Option.map_eq_some'.mp hfv
    exact ⟨v, (List.of_mem_zip hmem).1, hq⟩

/-- C9, witness: the amended invariants evaluated on a sorted two-row
column. -/
theorem C9_witness :
    (∀ dp ∈ create_data_points [some "1", some "2,5"]
        (([1, 2] : List ℤ).map (fun o => o * 1000)),
      ∃ o ∈ ([1, 2] : List ℤ), dp.timestamp = o * 1000) ∧
    List.Sorted (fun a b => a ≤ b)
      ((create_data_points [some "1", some "2,5"]
        (([1, 2] : List ℤ).map (fun o => o * 1000))).map Datapoint.timestamp) ∧
    (∀ dp ∈ create_data_points [some "1", some "2,5"]
        (([1, 2] : List ℤ).map (fun o => o * 1000)),
      ∃ c ∈ [some "1", some "2,5"], parseCell c = some dp.value) :=
  C9_datapoint_invariants [some "1", some "2,5"] [1, 2] (by decide)

/-! ## C10 — empty columns and empty flushes -/

/-- C10: a resolved column whose every cell is null or unparseable adds
nothing to the data-point count and contributes no entry to the stream of
batched entries (the concatenation of all flushed batches with the current
buffer is unchanged); and the remote append operation is never handed an
empty batch — every flush of `process_csv_file`, automatic or final, is
non-empty. -/
theorem C10_no_empty_batch :
    (∀ (rf : String → Bool) (ts : List ℤ) (st : ProcState)
        (c : String × List (Option String)),
      (create_data_points c.2 ts).isEmpty = true →
      (process_column rf ts st c).count = st.count ∧
      (process_column rf ts st c).flushes.flatten ++ (process_column rf ts st c).buffer =
        st.flushes.flatten ++ st.buffer) ∧
    (∀ (rf : String → Bool) (df : DataFrame) (cache : List (String × String)),
      ∀ b ∈ (process_csv_file rf df cache).flushes, b ≠ []) := by
  constructor
  · intro rf ts st c hempty
    unfold process_column
    dsimp only
    split_ifs <;> simp_all [List.flatten_append]
  · intro rf df cache b hb
    exact (process_csv_file_flushes rf df cache b hb).2

/-- C10, witness: a column of one empty and one null cell changes neither
the count nor the entry stream, and the concrete flushed batch of a
one-column file is non-empty. -/
theorem C10_witness :
    ((process_column (fun _ => false) [0, 0] ⟨[], [], [], [], 0⟩
        ("a:b", [some "", none])).count = (⟨[], [], [], [], 0⟩ : ProcState).count ∧
      (process_column (fun _ => false) [0, 0] ⟨[], [], [], [], 0⟩
          ("a:b", [some "", none])).flushes.flatten ++
        (process_column (fun _ => false) [0, 0] ⟨[], [], [], [], 0⟩
          ("a:b", [some "", none])).buffer =
        (⟨[], [], [], [], 0⟩ : ProcState).flushes.flatten ++
          (⟨[], [], [], [], 0⟩ : ProcState).buffer) ∧
    ([⟨"y", [⟨1000, 3⟩]⟩] : List TSWithDP) ≠ [] :=
  ⟨C10_no_empty_batch.1 (fun _ => false) [0, 0] ⟨[], [], [], [], 0⟩
      ("a:b", [some "", none]) (by decide),
   C10_no_empty_batch.2 (fun _ => false) ⟨[1], [("x:y", [some "3"])]⟩ []
     [⟨"y", [⟨1000, 3⟩]⟩] (by decide)⟩

end DCE
